import Mathlib

/-!
Verification of the exchange-rate acquisition, caching and refresh subsystem of
valutatrade_hub, via a shallow embedding of the relevant Python source files:

  * `parser_service/api_clients.py` — `BaseAPIClient._make_request` (retry loop
    with exponential backoff) and `ExchangeRateAPIClient.fetch_rates`;
  * `parser_service/storage.py` — journal append (`save_exchange_rate_record`)
    and snapshot replacement (`save_rates_cache`);
  * `parser_service/updater.py` — `RatesUpdater.run_update`;
  * `core/usecases.py` — `RateService.get_exchange_rate`,
    `RateService._is_fresh_data`, `RateService._update_rates_cache`;
  * `core/utils.py` — `validate_currency_code`;
  * `core/currencies.py` — the currency registry;
  * `parser_service/config.py` — the configuration constants.

Effects are made explicit: the on-disk journal and snapshot become explicit
state values; I/O success or failure of a write becomes a boolean oracle; the
outcome of each network attempt becomes an input; "now" and ISO-timestamp
rendering become environment fields.  Machine floats of the source are modelled
as exact rationals (`Rat`).
-/

set_option autoImplicit false

namespace VTH

/-! ## Configuration constants (`parser_service/config.py`) -/

/-- Source constant `ParserConfig.MAX_RETRIES = 3`. -/
def MAX_RETRIES : Nat := 3

/-- Source constant `APIConfig.BASE_CURRENCY = "USD"`. -/
def BASE_CURRENCY : String := "USD"

/-- Source constant `APIConfig.FIAT_CURRENCIES`. -/
def FIAT_CURRENCIES : List String :=
  ["USD", "EUR", "GBP", "JPY", "CAD", "AUD", "CHF", "CNY"]

/-- Source constant `APIConfig.CRYPTO_CURRENCIES` (code ↦ provider asset id). -/
def CRYPTO_CURRENCIES : List (String × String) :=
  [("BTC", "bitcoin"), ("ETH", "ethereum"), ("SOL", "solana"),
   ("ADA", "cardano"), ("DOT", "polkadot"), ("DOGE", "dogecoin")]

/-- The keys of `APIConfig.CRYPTO_CURRENCIES`, used for `in` tests on the dict. -/
def crypto_codes : List String := CRYPTO_CURRENCIES.map Prod.fst

/-! ## HTTP attempts (`api_clients.py`, `BaseAPIClient._make_request`)

One iteration of the retry loop observes one of these outcomes.  `response`
carries the status code, `response.text`, and the result of `response.json()`
(`Except.error m` when the body is not valid JSON; in the `requests` library
that parse failure is raised as a `RequestException` subclass, hence caught by
the `except requests.exceptions.RequestException` clause of the loop). -/

inductive HttpAttempt (α : Type) where
  | response (status : Nat) (text : String) (body : Except String α)
  | timeout
  | connError
  | requestExc (msg : String)
  | otherExc (msg : String)

/-- The outcome of one loop iteration of `_make_request`: either the parsed
body of a 200 response, or the `error_msg` recorded by the matching branch. -/
def attempt_result {α : Type} : HttpAttempt α → Except String α
  | .response 200 _ (Except.ok p) => Except.ok p
  | .response 200 _ (Except.error m) => Except.error ("Request exception: " ++ m)
  | .response s t _ => Except.error ("HTTP " ++ toString s ++ ": " ++ t)
  | .timeout => Except.error "Request timeout"
  | .connError => Except.error "Connection error"
  | .requestExc m => Except.error ("Request exception: " ++ m)
  | .otherExc m => Except.error ("Unexpected error: " ++ m)

/-- The `for attempt in range(MAX_RETRIES)` loop of `_make_request`.
`o` maps the attempt index to that attempt's outcome, `remaining` counts loop
iterations left, `attempt` is the current index, `lastErr` is the Python
`error_msg` variable, and `sleeps` records every `time.sleep(2 ** attempt)`
performed so far.  After the loop, `ApiRequestError` is raised with the last
error message. -/
def _make_request_loop {α : Type} (o : Nat → HttpAttempt α) (maxR : Nat) :
    Nat → Nat → String → List Nat → Except String α × List Nat
  | 0, _, lastErr, sleeps =>
    (Except.error ("Failed after " ++ toString maxR ++ " attempts: " ++ lastErr), sleeps)
  | remaining + 1, attempt, _, sleeps =>
    match attempt_result (o attempt) with
    | Except.ok p => (Except.ok p, sleeps)
    | Except.error m =>
      let sleeps2 := if attempt < maxR - 1 then sleeps ++ [2 ^ attempt] else sleeps
      _make_request_loop o maxR remaining (attempt + 1) m sleeps2

/-- Embedding of `BaseAPIClient._make_request`, returning the parsed payload or the raised
`ApiRequestError` reason, together with the list of backoff sleeps taken. -/
def _make_request {α : Type} (o : Nat → HttpAttempt α) : Except String α × List Nat :=
  _make_request_loop o MAX_RETRIES MAX_RETRIES 0 "" []

/-! ## `ExchangeRateAPIClient.fetch_rates` -/

/-- The JSON payload shape read by `ExchangeRateAPIClient.fetch_rates`:
optionally a `conversion_rates` object whose entries map a currency code to
the outcome of `float(rate)` (`Except.error m` when that conversion raises). -/
structure ERPayload where
  conversion_rates : Option (List (String × Except String Rat))

/-- The `for currency, rate in data['conversion_rates'].items()` loop:
keep configured fiat currencies other than the base, keyed `CCY_USD`; a failing
`float(rate)` raises (`KeyError`/`ValueError`/`TypeError` branch). -/
def er_collect : List (String × Except String Rat) → List (String × Rat) →
    Except String (List (String × Rat))
  | [], acc => Except.ok acc
  | (c, v) :: rest, acc =>
    if c ∈ FIAT_CURRENCIES ∧ c ≠ BASE_CURRENCY then
      match v with
      | Except.ok r => er_collect rest (acc ++ [(c ++ "_" ++ BASE_CURRENCY, r)])
      | Except.error m => Except.error m
    else er_collect rest acc

/-- Embedding of `ExchangeRateAPIClient.fetch_rates`: run `_make_request`; a raised
`ApiRequestError` is re-raised unchanged; a shape/conversion error in the
returned payload raises `ApiRequestError("Invalid ExchangeRate-API response
format: ...")` without any further attempt. -/
def fetch_rates (o : Nat → HttpAttempt ERPayload) :
    Except String (List (String × Rat)) × List Nat :=
  match _make_request o with
  | (Except.error m, sl) => (Except.error m, sl)
  | (Except.ok p, sl) =>
    match p.conversion_rates with
    | none => (Except.ok [], sl)
    | some entries =>
      match er_collect entries [] with
      | Except.ok rates => (Except.ok rates, sl)
      | Except.error m =>
        (Except.error ("Invalid ExchangeRate-API response format: " ++ m), sl)

/-! ## Storage (`parser_service/storage.py`) -/

/-- One journal record, as built by `save_exchange_rate_record`. -/
structure RateRecord where
  id : String
  from_currency : String
  to_currency : String
  rate : Rat
  timestamp : String
  source : String
  meta : List (String × Option String)
  deriving DecidableEq

/-- A snapshot cache entry (`save_rates_cache`, new format). -/
structure CacheEntry where
  rate : Rat
  updated_at : String
  source : String
  deriving DecidableEq

/-- The snapshot document `{"pairs": ..., "last_refresh": ...}`. -/
structure Snapshot where
  pairs : List (String × CacheEntry)
  last_refresh : String
  deriving DecidableEq

/-- The two on-disk artifacts owned by `RatesStorage`: the journal
(`exchange_rates.json`, as the record list `load_all_records` returns) and the
snapshot (`rates.json`, `none` when the file does not exist). -/
structure ParserStorage where
  journal : List RateRecord
  snapshot : Option Snapshot
  deriving DecidableEq

/-- Embedding of `RatesStorage._generate_record_id` (the `strftime` rendering of the
timestamp is passed in as `tsZ`). -/
def _generate_record_id (f t tsZ : String) : String :=
  f ++ "_" ++ t ++ "_" ++ tsZ

/-- The record dict built inside `save_exchange_rate_record`. -/
def mk_record (f t : String) (r : Rat) (tsIso tsZ source : String)
    (meta : List (String × Option String)) : RateRecord :=
  { id := _generate_record_id f t tsZ
    from_currency := f.toUpper
    to_currency := t.toUpper
    rate := r
    timestamp := tsIso
    source := source
    meta := meta }

/-- Embedding of `RatesStorage.save_exchange_rate_record`: on I/O success (`journalOk`)
append exactly one record to the loaded journal and report `True`; any raised
exception is caught and reported as `False` with the journal unchanged. -/
def save_exchange_rate_record (journalOk : Bool) (journal : List RateRecord)
    (f t : String) (r : Rat) (tsIso tsZ source : String)
    (meta : List (String × Option String)) : Bool × List RateRecord :=
  if journalOk then (true, journal ++ [mk_record f t r tsIso tsZ source meta])
  else (false, journal)

/-- Kernel-evaluable splitting of a character list at every occurrence of a
separator (the behaviour of Python `str.split` with an explicit separator). -/
def split_chars (sep : Char) : List Char → List (List Char)
  | [] => [[]]
  | c :: cs =>
    match split_chars sep cs with
    | [] => [[]]
    | g :: gs => if c = sep then [] :: g :: gs else (c :: g) :: gs

/-- Python `pair.split('_')`. -/
def py_split_underscore (s : String) : List String :=
  (split_chars '_' s.data).map String.mk

/-- Python `pair.split('_')[0]` (the split never yields an empty list). -/
def first_component (p : String) : String := (py_split_underscore p).headD ""

/-- The `cache_data["pairs"]` construction of `save_rates_cache`: every entry
is stamped with the run's `last_refresh` and a display source derived from the
first pair component. -/
def build_cache_pairs (rates : List (String × Rat)) (lr : String) :
    List (String × CacheEntry) :=
  rates.map fun pr =>
    (pr.1, { rate := pr.2
             updated_at := lr
             source := if first_component pr.1 ∈ crypto_codes
                       then "CoinGecko" else "ExchangeRate-API" })

/-- Embedding of `RatesStorage.save_rates_cache`: on I/O success (`saveOk`) atomically
replace the snapshot, else catch the exception and report `False`, leaving the
previous snapshot untouched. -/
def save_rates_cache (saveOk : Bool) (rates : List (String × Rat))
    (lr : String) (σ : ParserStorage) : Bool × ParserStorage :=
  if saveOk then
    (true, { σ with snapshot := some { pairs := build_cache_pairs rates lr
                                       last_refresh := lr } })
  else (false, σ)

/-! ## The updater (`parser_service/updater.py`, `RatesUpdater.run_update`) -/

/-- The keys of `RatesUpdater.clients`, in dict insertion order. -/
def client_names : List String := ["coingecko", "exchangerate"]

/-- The `source_display` selection in the journaling loop of `run_update`. -/
def source_display (s : String) : String :=
  if s = "coingecko" then "CoinGecko" else "ExchangeRate-API"

/-- The `meta` dict built per record in `run_update`
(`CRYPTO_CURRENCIES.get(from_currency)` may be `None`). -/
def meta_for (s fromC : String) : List (String × Option String) :=
  if s = "coingecko" then [("crypto_id", CRYPTO_CURRENCIES.lookup fromC)]
  else [("base_currency", some BASE_CURRENCY)]

/-- Python `from_currency, to_currency = pair.split('_')`: succeeds exactly when the
split yields two components, else the unpacking raises `ValueError`. -/
def splitPair (p : String) : Option (String × String) :=
  match py_split_underscore p with
  | [a, b] => some (a, b)
  | _ => none

/-- Stand-in for the Python `ValueError` message raised when tuple unpacking
of `pair.split('_')` fails. -/
def unpack_error (p : String) : String := "could not unpack pair " ++ p

/-- The inputs of one `run_update` call that the source leaves to the outside
world: each client's `fetch_rates` outcome for this cycle, the two timestamp
renderings taken at the start of the run, and the success of the two kinds of
storage writes. -/
structure UpdateEnv where
  fetch : String → Except String (List (String × Rat))
  lastRefresh : String
  tsIso : String
  tsZ : String
  journalOk : Bool
  saveOk : Bool

/-- The journaling loop over one source's fetched pairs.  Each record write's
boolean result is ignored (the source discards the return value of
`save_exchange_rate_record`); a pair that fails to unpack raises, aborting the
loop with the error. -/
def journal_rates (env : UpdateEnv) (srcName : String) :
    List (String × Rat) → List RateRecord → List RateRecord × Option String
  | [], j => (j, none)
  | (pair, r) :: rest, j =>
    match splitPair pair with
    | none => (j, some (unpack_error pair))
    | some (f, t) =>
      let res := save_exchange_rate_record env.journalOk j f t r
        env.tsIso env.tsZ (source_display srcName) (meta_for srcName f)
      journal_rates env srcName rest res.2

/-- Python `dict` assignment `d[k] = v`: replace in place when the key exists,
else append. -/
def dictInsert (d : List (String × Rat)) (k : String) (v : Rat) :
    List (String × Rat) :=
  if d.any fun kv => kv.1 == k then
    d.map fun kv => if kv.1 == k then (k, v) else kv
  else d ++ [(k, v)]

/-- Python `all_rates.update(rates)`. -/
def dictUpdate (d : List (String × Rat)) (upds : List (String × Rat)) :
    List (String × Rat) :=
  upds.foldl (fun acc kv => dictInsert acc kv.1 kv.2) d

/-- The mutable locals of `run_update` while looping over sources, plus the
storage state. -/
structure LoopState where
  all_rates : List (String × Rat)
  successful_sources : List String
  failed_sources : List (String × String)
  store : ParserStorage
  deriving DecidableEq

/-- The `for source_name in sources` loop of `run_update`: unknown sources are
skipped; on fetch success the rates are merged, the source recorded as
successful and every pair journaled (an unpacking error inside that loop is
caught by the surrounding `except`, adding the source to `failed_sources` as
well); on fetch failure `{source, error}` is appended to `failed_sources`. -/
def run_update_loop (env : UpdateEnv) : List String → LoopState → LoopState
  | [], st => st
  | s :: rest, st =>
    if s ∈ client_names then
      match env.fetch s with
      | Except.ok rates =>
        let jr := journal_rates env s rates st.store.journal
        let st2 : LoopState :=
          { all_rates := dictUpdate st.all_rates rates
            successful_sources := st.successful_sources ++ [s]
            failed_sources :=
              match jr.2 with
              | none => st.failed_sources
              | some e2 => st.failed_sources ++ [(s, e2)]
            store := { st.store with journal := jr.1 } }
        run_update_loop env rest st2
      | Except.error e =>
        run_update_loop env rest
          { st with failed_sources := st.failed_sources ++ [(s, e)] }
    else run_update_loop env rest st

/-- The `update_results` dict returned by `run_update`. -/
structure UpdateResult where
  successful_sources : List String
  failed_sources : List (String × String)
  total_rates : Nat
  last_refresh : String
  deriving DecidableEq

/-- The merged rate map accumulated by the source loop of a run
(the `all_rates` local of `run_update`). -/
def merged_rates (env : UpdateEnv) (sources : Option (List String))
    (σ : ParserStorage) : List (String × Rat) :=
  (run_update_loop env (sources.getD client_names)
    { all_rates := [], successful_sources := [], failed_sources := [], store := σ }).all_rates

/-- Embedding of `RatesUpdater.run_update`: loop over the selected sources (all clients
when `sources is None`), then, only if the merged map is non-empty, write the
snapshot; `total_rates` is set only when that write succeeds, else a synthetic
`{"source": "storage"}` failure is appended. -/
def run_update (env : UpdateEnv) (sources : Option (List String))
    (σ : ParserStorage) : UpdateResult × ParserStorage :=
  let st := run_update_loop env (sources.getD client_names)
    { all_rates := [], successful_sources := [], failed_sources := [], store := σ }
  if st.all_rates.isEmpty then
    ({ successful_sources := st.successful_sources
       failed_sources := st.failed_sources
       total_rates := 0
       last_refresh := env.lastRefresh }, st.store)
  else
    let res := save_rates_cache env.saveOk st.all_rates env.lastRefresh st.store
    if res.1 then
      ({ successful_sources := st.successful_sources
         failed_sources := st.failed_sources
         total_rates := st.all_rates.length
         last_refresh := env.lastRefresh }, res.2)
    else
      ({ successful_sources := st.successful_sources
         failed_sources := st.failed_sources ++ [("storage", "Failed to save cache")]
         total_rates := 0
         last_refresh := env.lastRefresh }, res.2)

/-! ## Core service (`core/usecases.py`, `RateService`) -/

/-- Python `str.upper()`, over the character list. -/
def py_upper (s : String) : String := String.mk (s.data.map Char.toUpper)

/-- Python `str.strip()`: drop leading and trailing whitespace. -/
def py_strip (s : String) : String :=
  String.mk (((s.data.dropWhile Char.isWhitespace).reverse.dropWhile
    Char.isWhitespace).reverse)

/-- Embedding of `core/utils.py` `validate_currency_code`: upper-case, strip, then check
non-empty, length in 2..5 and alphabetic; returns the normalized code or the
raised `ValidationError` message.  (`Char.isAlpha` models Python `str.isalpha`
for the ASCII codes used here.) -/
def validate_currency_code (s : String) : Except String String :=
  let c := py_strip (py_upper s)
  if c = "" then Except.error "Код валюты не может быть пустым"
  else if ¬(2 ≤ c.data.length ∧ c.data.length ≤ 5) then
    Except.error "Код валюты должен содержать от 2 до 5 символов"
  else if ¬(c.data.all Char.isAlpha) then
    Except.error "Код валюты должен содержать только буквы"
  else Except.ok c

/-- The codes registered by `core/currencies.py`, `_initialize_currencies`
(the registry `get_currency` consults). -/
def currency_registry : List String := ["USD", "EUR", "RUB", "BTC", "ETH"]

/-- One entry of the core-service `rates` collection: `{rate, updated_at}`
(the stub writes only these two fields per pair). -/
structure CoreEntry where
  rate : Rat
  updated_at : String
  deriving DecidableEq

/-- The `rates` collection loaded by `db.load_collection('rates')`: pair keys
mapping to entries, plus the top-level `source` and `last_refresh` keys.  A
validated pair key (`FROM_TO`, both parts upper-case alphabetic of length
2..5) can never collide with the literal keys `source` or `last_refresh`, so
`pair_key in rates_data` is membership in `pairs`. -/
structure RatesCollection where
  pairs : List (String × CoreEntry)
  source : Option String
  last_refresh : Option String
  deriving DecidableEq

/-- The environment of one core-service query: the current instant, its
`datetime.now().isoformat()` rendering, the behaviour of
`datetime.fromisoformat` on strings (in seconds), the configured
`rates_ttl_seconds`, and whether `db.save_collection` succeeds. -/
structure CoreEnv where
  now : Int
  nowIso : String
  parseTime : String → Option Int
  ttl : Int
  dbSaveOk : Bool
  dbErrMsg : String

/-- Embedding of `RateService._is_fresh_data`: empty timestamps and unparsable timestamps
are not fresh; otherwise fresh iff the age is below the TTL. -/
def _is_fresh_data (env : CoreEnv) (ts : String) : Bool :=
  if ts = "" then false
  else
    match env.parseTime ts with
    | some dt => decide (env.now - dt < env.ttl)
    | none => false

/-- The fixed collection written by `RateService._update_rates_cache` — the
source's own comment marks it as a stub awaiting Parser Service integration
("Пока используем заглушку с фиксированными курсами"). -/
def stub_rates (iso : String) : RatesCollection :=
  { pairs :=
      [("EUR_USD", { rate := (1.0786 : Rat), updated_at := iso }),
       ("USD_EUR", { rate := (0.927 : Rat), updated_at := iso }),
       ("BTC_USD", { rate := (59337.21 : Rat), updated_at := iso }),
       ("USD_BTC", { rate := (0.00001685 : Rat), updated_at := iso }),
       ("RUB_USD", { rate := (0.01016 : Rat), updated_at := iso }),
       ("USD_RUB", { rate := (98.42 : Rat), updated_at := iso }),
       ("ETH_USD", { rate := (3720.00 : Rat), updated_at := iso }),
       ("USD_ETH", { rate := (0.0002688 : Rat), updated_at := iso })]
    source := some "StubService"
    last_refresh := some iso }

/-- The message with which `get_exchange_rate` fails when neither a direct nor
a triangulated quote exists: `str` of the raised
`ApiRequestError("Курс from→to недоступен")`. -/
def rate_unavailable_msg (vf vt : String) : String :=
  "Ошибка при обращении к внешнему API: Курс " ++ vf ++ "→" ++ vt ++ " недоступен"

/-- Embedding of `RateService.get_exchange_rate`, with a fuel bound on the recursion used
for triangulation.  The recursion depth of the source is at most one extra
call level (the recursive calls fix one side to `USD`, so their own
triangulation guard is false); `fuel = 1` therefore reproduces it exactly.
Returns the Python triple `(success, rate, updated_at-or-error)` together with
the resulting `rates` collection state. -/
def get_rate_aux (env : CoreEnv) (fuel : Nat) (σ : RatesCollection)
    (fromC toC : String) : (Bool × Rat × String) × RatesCollection :=
  match validate_currency_code fromC with
  | Except.error m => ((false, 0, "Ошибка при получении курса: " ++ m), σ)
  | Except.ok vf =>
    match validate_currency_code toC with
    | Except.error m => ((false, 0, "Ошибка при получении курса: " ++ m), σ)
    | Except.ok vt =>
      if vf ∈ currency_registry then
        if vt ∈ currency_registry then
          let lr := σ.last_refresh.getD ""
          if _is_fresh_data env lr = false ∧ env.dbSaveOk = false then
            ((false, 0,
              "Ошибка при обращении к внешнему API: Не удалось обновить курсы: "
                ++ env.dbErrMsg), σ)
          else
            let σ1 := if _is_fresh_data env lr then σ else stub_rates env.nowIso
            match σ1.pairs.lookup (vf ++ "_" ++ vt) with
            | some entry => ((true, entry.rate, entry.updated_at), σ1)
            | none =>
              if vf ≠ "USD" ∧ vt ≠ "USD" then
                match fuel with
                | 0 => ((false, 0, rate_unavailable_msg vf vt), σ1)
                | fuel2 + 1 =>
                  let r1 := get_rate_aux env fuel2 σ1 vf "USD"
                  let r2 := get_rate_aux env fuel2 r1.2 "USD" vt
                  if r1.1.1 && r2.1.1 then
                    ((true, r1.1.2.1 * r2.1.2.1, env.nowIso), r2.2)
                  else ((false, 0, rate_unavailable_msg vf vt), r2.2)
              else ((false, 0, rate_unavailable_msg vf vt), σ1)
        else ((false, 0, "Неизвестная валюта \x27" ++ vt ++ "\x27"), σ)
      else ((false, 0, "Неизвестная валюта \x27" ++ vf ++ "\x27"), σ)

/-- Embedding of `RateService.get_exchange_rate` at its actual recursion depth. -/
def get_exchange_rate (env : CoreEnv) (σ : RatesCollection)
    (fromC toC : String) : (Bool × Rat × String) × RatesCollection :=
  get_rate_aux env 1 σ fromC toC

/-! ## Helper lemmas about the updater -/

/-- The journal records a `run_update` cycle produces for one source's fetched
pairs (one record per well-formed pair, in order). -/
def records_for (env : UpdateEnv) (srcName : String)
    (rates : List (String × Rat)) : List RateRecord :=
  rates.filterMap fun pr => (splitPair pr.1).map fun ft =>
    mk_record ft.1 ft.2 pr.2 env.tsIso env.tsZ (source_display srcName)
      (meta_for srcName ft.1)

lemma journal_rates_eq (env : UpdateEnv) (srcName : String)
    (rates : List (String × Rat)) (j : List RateRecord)
    (hwf : ∀ pr ∈ rates, (splitPair pr.1).isSome) :
    journal_rates env srcName rates j =
      (j ++ (if env.journalOk then records_for env srcName rates else []), none) := by
  induction rates generalizing j with
  | nil => simp [journal_rates, records_for]
  | cons pr rest ih =>
    obtain ⟨ft, hft⟩ := Option.isSome_iff_exists.mp (hwf pr (by simp))
    have hrest : ∀ q ∈ rest, (splitPair q.1).isSome := fun q hq => hwf q (by simp [hq])
    obtain ⟨p1, r⟩ := pr
    obtain ⟨f, t⟩ := ft
    simp only [journal_rates, hft, save_exchange_rate_record]
    cases hj : env.journalOk with
    | true =>
      rw [if_pos rfl]
      rw [ih _ hrest]
      simp [records_for, hft, hj, List.filterMap_cons]
    | false =>
      rw [if_neg (by simp)]
      rw [ih _ hrest]
      simp [hj]

lemma dictInsert_of_not_mem (d : List (String × Rat)) (k : String) (v : Rat)
    (h : ∀ p ∈ d, p.1 ≠ k) : dictInsert d k v = d ++ [(k, v)] := by
  unfold dictInsert
  rw [if_neg]
  simp only [List.any_eq_true, beq_iff_eq, not_exists, not_and]
  intro p hp
  exact h p hp

lemma dictUpdate_of_disjoint (rates : List (String × Rat)) :
    ∀ d : List (String × Rat), (rates.map Prod.fst).Nodup →
    (∀ p ∈ rates, ∀ q ∈ d, q.1 ≠ p.1) → dictUpdate d rates = d ++ rates := by
  induction rates with
  | nil => intro d _ _; simp [dictUpdate]
  | cons pr rest ih =>
    intro d hnd hdis
    obtain ⟨k, v⟩ := pr
    have hstep : dictInsert d k v = d ++ [(k, v)] :=
      dictInsert_of_not_mem d k v fun p hp => hdis (k, v) (by simp) p hp
    have hnd' : (k :: rest.map Prod.fst).Nodup := hnd
    have hnd2 : (rest.map Prod.fst).Nodup := (List.nodup_cons.mp hnd').2
    have hk_not : k ∉ rest.map Prod.fst := (List.nodup_cons.mp hnd').1
    have hdis2 : ∀ p ∈ rest, ∀ q ∈ d ++ [(k, v)], q.1 ≠ p.1 := by
      intro p hp q hq
      rcases List.mem_append.mp hq with hq1 | hq2
      · exact hdis p (by simp [hp]) q hq1
      · have hq3 : q = (k, v) := by simpa using hq2
        subst hq3
        intro hcon
        exact hk_not (by simpa [← hcon] using List.mem_map_of_mem Prod.fst hp)
    calc dictUpdate d ((k, v) :: rest)
        = dictUpdate (dictInsert d k v) rest := rfl
      _ = dictUpdate (d ++ [(k, v)]) rest := by rw [hstep]
      _ = (d ++ [(k, v)]) ++ rest := ih _ hnd2 hdis2
      _ = d ++ ((k, v) :: rest) := by simp

lemma dictUpdate_nil (rates : List (String × Rat))
    (hnd : (rates.map Prod.fst).Nodup) : dictUpdate [] rates = rates := by
  simpa using dictUpdate_of_disjoint rates [] hnd (by simp)

lemma build_cache_pairs_proj (rates : List (String × Rat)) (lr : String) :
    (build_cache_pairs rates lr).map (fun pe => (pe.1, pe.2.rate)) = rates := by
  simp [build_cache_pairs, List.map_map, Function.comp_def]

lemma build_cache_pairs_updated_at (rates : List (String × Rat)) (lr : String) :
    ∀ pe ∈ build_cache_pairs rates lr, pe.2.updated_at = lr := by
  intro pe hpe
  simp only [build_cache_pairs, List.mem_map] at hpe
  obtain ⟨pr, _, hpr⟩ := hpe
  rw [← hpr]

lemma run_update_loop_all_fail (env : UpdateEnv) (srcs : List String) :
    ∀ st : LoopState,
    (∀ s ∈ srcs, s ∈ client_names → ∃ e, env.fetch s = Except.error e) →
    ∃ fl, run_update_loop env srcs st =
      { st with failed_sources := st.failed_sources ++ fl } := by
  induction srcs with
  | nil => intro st _; exact ⟨[], by simp [run_update_loop]⟩
  | cons s rest ih =>
    intro st h
    by_cases hm : s ∈ client_names
    · obtain ⟨e, he⟩ := h s (by simp) hm
      obtain ⟨fl, hfl⟩ := ih
        { st with failed_sources := st.failed_sources ++ [(s, e)] }
        (fun x hx hxm => h x (by simp [hx]) hxm)
      refine ⟨(s, e) :: fl, ?_⟩
      simp only [run_update_loop, if_pos hm, he]
      rw [hfl]
      simp
    · obtain ⟨fl, hfl⟩ := ih st (fun x hx hxm => h x (by simp [hx]) hxm)
      refine ⟨fl, ?_⟩
      simp only [run_update_loop, if_neg hm]
      exact hfl

lemma run_update_loop_err (env : UpdateEnv) (s : String) (rest : List String)
    (st : LoopState) (e : String)
    (hm : s ∈ client_names) (he : env.fetch s = Except.error e) :
    run_update_loop env (s :: rest) st =
      run_update_loop env rest
        { st with failed_sources := st.failed_sources ++ [(s, e)] } := by
  simp [run_update_loop, hm, he]

lemma run_update_loop_ok (env : UpdateEnv) (s : String) (rest : List String)
    (st : LoopState) (rates : List (String × Rat))
    (hm : s ∈ client_names) (hr : env.fetch s = Except.ok rates)
    (hwf : ∀ pr ∈ rates, (splitPair pr.1).isSome) :
    run_update_loop env (s :: rest) st =
      run_update_loop env rest
        { all_rates := dictUpdate st.all_rates rates
          successful_sources := st.successful_sources ++ [s]
          failed_sources := st.failed_sources
          store := { st.store with journal := st.store.journal ++
            (if env.journalOk then records_for env s rates else []) } } := by
  simp [run_update_loop, hm, hr,
    journal_rates_eq env s rates st.store.journal hwf]

/-! ## Claim theorems about the updater -/

/-- Claim C2: in a `run_update` run where one source's fetch fails with `e`
and the other succeeds with `rates` (in either order), the failing source's
`{source, error}` entry is exactly the content of `failed_sources`, the
succeeding source is still attempted and recorded successful, every fetched
pair is journaled, and the new snapshot reflects exactly the succeeding
source's rates (hypotheses: pair keys well formed and distinct as produced by
the real clients, at least one rate fetched, and the storage writes
succeed). -/
theorem claim_C2_source_isolation (env : UpdateEnv) (σ : ParserStorage)
    (sA sB e : String) (rates : List (String × Rat)) (srcs : List String)
    (horder : srcs = [sA, sB] ∨ srcs = [sB, sA])
    (hA : env.fetch sA = Except.error e)
    (hB : env.fetch sB = Except.ok rates)
    (hmemA : sA ∈ client_names) (hmemB : sB ∈ client_names)
    (hwf : ∀ pr ∈ rates, (splitPair pr.1).isSome)
    (hnd : (rates.map Prod.fst).Nodup)
    (hne : rates ≠ [])
    (hj : env.journalOk = true) (hs : env.saveOk = true) :
    (run_update env (some srcs) σ).1.failed_sources = [(sA, e)] ∧
    (run_update env (some srcs) σ).1.successful_sources = [sB] ∧
    (run_update env (some srcs) σ).2.journal =
      σ.journal ++ records_for env sB rates ∧
    (run_update env (some srcs) σ).2.snapshot =
      some { pairs := build_cache_pairs rates env.lastRefresh
             last_refresh := env.lastRefresh } ∧
    (build_cache_pairs rates env.lastRefresh).map (fun pe => (pe.1, pe.2.rate))
      = rates := by
  have hdu : dictUpdate [] rates = rates := dictUpdate_nil rates hnd
  have hne2 : rates.isEmpty = false := by
    cases rates with
    | nil => exact absurd rfl hne
    | cons a l => rfl
  have key : run_update_loop env srcs
      { all_rates := [], successful_sources := [], failed_sources := [], store := σ } =
      { all_rates := rates, successful_sources := [sB], failed_sources := [(sA, e)],
        store := { σ with journal := σ.journal ++ records_for env sB rates } } := by
    rcases horder with h | h <;> subst h
    · rw [run_update_loop_err env sA _ _ e hmemA hA,
        run_update_loop_ok env sB _ _ rates hmemB hB hwf]
      simp [run_update_loop, hj, hdu]
    · rw [run_update_loop_ok env sB _ _ rates hmemB hB hwf,
        run_update_loop_err env sA _ _ e hmemA hA]
      simp [run_update_loop, hj, hdu]
  unfold run_update
  simp only [Option.getD, key, hne2, Bool.false_eq_true, if_false,
    save_rates_cache, hs, if_true]
  simp [build_cache_pairs_proj]

/-- Concrete instance of claim C2's theorem: `exchangerate` fails, `coingecko`
succeeds with one BTC rate. -/
theorem claim_C2_witness :
    (run_update
      { fetch := fun s => if s = "coingecko"
          then Except.ok [("BTC_USD", (59337.21 : Rat))]
          else Except.error "Ошибка при обращении к внешнему API: Failed after 3 attempts: Request timeout"
        lastRefresh := "2026-01-01T00:00:00", tsIso := "2026-01-01T00:00:00"
        tsZ := "2026-01-01T00:00:00Z", journalOk := true, saveOk := true }
      (some ["exchangerate", "coingecko"])
      { journal := [], snapshot := none }).1.failed_sources =
      [("exchangerate", "Ошибка при обращении к внешнему API: Failed after 3 attempts: Request timeout")] := by
  exact (claim_C2_source_isolation _ _ "exchangerate" "coingecko" _
    [("BTC_USD", (59337.21 : Rat))] _ (Or.inl rfl) rfl rfl
    (by decide) (by decide) (by decide) (by decide) (by decide) rfl rfl).1

/-- Claim C3: when every selected (known) source fails, `run_update` reports
`total_rates = 0` and leaves the whole storage — journal and snapshot —
exactly as it was. -/
theorem claim_C3_no_regression_on_total_failure (env : UpdateEnv)
    (sources : Option (List String)) (σ : ParserStorage)
    (h : ∀ s ∈ sources.getD client_names, s ∈ client_names →
      ∃ e, env.fetch s = Except.error e) :
    (run_update env sources σ).1.total_rates = 0 ∧
    (run_update env sources σ).2 = σ := by
  obtain ⟨fl, hfl⟩ := run_update_loop_all_fail env (sources.getD client_names)
    { all_rates := [], successful_sources := [], failed_sources := [], store := σ } h
  unfold run_update
  rw [hfl]
  exact ⟨rfl, rfl⟩

/-- Concrete instance of claim C3's theorem: both sources fail on the default
source list. -/
theorem claim_C3_witness :
    (run_update
      { fetch := fun _ => Except.error "Ошибка при обращении к внешнему API: Failed after 3 attempts: Connection error"
        lastRefresh := "2026-01-01T00:00:00", tsIso := "2026-01-01T00:00:00"
        tsZ := "2026-01-01T00:00:00Z", journalOk := true, saveOk := true }
      none { journal := [], snapshot := some { pairs := [], last_refresh := "2025-12-31T00:00:00" } }).2 =
    { journal := [], snapshot := some { pairs := [], last_refresh := "2025-12-31T00:00:00" } } := by
  exact (claim_C3_no_regression_on_total_failure _ none _
    (fun s _ _ => ⟨_, rfl⟩)).2

/-- Claim C7: whenever a run reports a positive `total_rates` (a successful
write of a non-empty merged map), the snapshot it wrote stamps every entry's
`updated_at` with exactly the snapshot's own `last_refresh`. -/
theorem claim_C7_snapshot_timestamps (env : UpdateEnv)
    (sources : Option (List String)) (σ : ParserStorage)
    (h : 0 < (run_update env sources σ).1.total_rates) :
    ∃ snap, (run_update env sources σ).2.snapshot = some snap ∧
      snap.last_refresh = env.lastRefresh ∧
      ∀ pe ∈ snap.pairs, pe.2.updated_at = snap.last_refresh := by
  unfold run_update at h ⊢
  by_cases hemp : (run_update_loop env (sources.getD client_names)
      { all_rates := [], successful_sources := [], failed_sources := [],
        store := σ }).all_rates.isEmpty
  · rw [if_pos hemp] at h
    exact absurd h (by simp)
  · rw [if_neg hemp] at h ⊢
    by_cases hs : env.saveOk
    · simp only [save_rates_cache, hs, if_true] at h ⊢
      refine ⟨_, rfl, rfl, ?_⟩
      exact build_cache_pairs_updated_at _ _
    · simp only [save_rates_cache, hs, Bool.false_eq_true, if_false] at h
      exact absurd h (by simp)

/-- Concrete instance of claim C7's theorem. -/
theorem claim_C7_witness :
    0 < (run_update
      { fetch := fun s => if s = "coingecko"
          then Except.ok [("BTC_USD", (59337.21 : Rat))]
          else Except.ok [("EUR_USD", (1.0786 : Rat))]
        lastRefresh := "2026-01-01T00:00:00", tsIso := "2026-01-01T00:00:00"
        tsZ := "2026-01-01T00:00:00Z", journalOk := true, saveOk := true }
      none { journal := [], snapshot := none }).1.total_rates ∧
    ∃ snap, (run_update
      { fetch := fun s => if s = "coingecko"
          then Except.ok [("BTC_USD", (59337.21 : Rat))]
          else Except.ok [("EUR_USD", (1.0786 : Rat))]
        lastRefresh := "2026-01-01T00:00:00", tsIso := "2026-01-01T00:00:00"
        tsZ := "2026-01-01T00:00:00Z", journalOk := true, saveOk := true }
      none { journal := [], snapshot := none }).2.snapshot = some snap ∧
      snap.last_refresh = "2026-01-01T00:00:00" ∧
      ∀ pe ∈ snap.pairs, pe.2.updated_at = snap.last_refresh :=
  ⟨by decide, claim_C7_snapshot_timestamps _ none _ (by decide)⟩

/-- Claim C8, as stated, is false: when the snapshot write fails,
`total_rates` is left at 0 even though the merged map is non-empty.  Here
`coingecko` fetched one rate (merged map of size 1) but the cache write
failed, and the returned `total_rates` is 0, not 1. -/
theorem claim_C8_counterexample :
    (run_update
      { fetch := fun s => if s = "coingecko"
          then Except.ok [("BTC_USD", (59337.21 : Rat))]
          else Except.error "down"
        lastRefresh := "2026-01-01T00:00:00", tsIso := "2026-01-01T00:00:00"
        tsZ := "2026-01-01T00:00:00Z", journalOk := true, saveOk := false }
      (some ["coingecko"]) { journal := [], snapshot := none }).1.total_rates = 0 ∧
    (merged_rates
      { fetch := fun s => if s = "coingecko"
          then Except.ok [("BTC_USD", (59337.21 : Rat))]
          else Except.error "down"
        lastRefresh := "2026-01-01T00:00:00", tsIso := "2026-01-01T00:00:00"
        tsZ := "2026-01-01T00:00:00Z", journalOk := true, saveOk := false }
      (some ["coingecko"]) { journal := [], snapshot := none }).length = 1 := by
  decide

/-- Claim C8 amended: `total_rates` equals the size of the merged rate map
when that map is non-empty and the snapshot write succeeds, and is 0
otherwise — in particular it is 0 when the write fails. -/
theorem claim_C8_amended_total_rates (env : UpdateEnv)
    (sources : Option (List String)) (σ : ParserStorage) :
    (run_update env sources σ).1.total_rates =
      if env.saveOk = true ∧ merged_rates env sources σ ≠ [] then
        (merged_rates env sources σ).length
      else 0 := by
  unfold run_update merged_rates
  by_cases hemp : (run_update_loop env (sources.getD client_names)
      { all_rates := [], successful_sources := [], failed_sources := [],
        store := σ }).all_rates = []
  · simp [hemp]
  · have hemp2 : (run_update_loop env (sources.getD client_names)
        { all_rates := [], successful_sources := [], failed_sources := [],
          store := σ }).all_rates.isEmpty = false := by
      simpa [List.isEmpty_iff] using hemp
    by_cases hs : env.saveOk
    · simp [hemp2, save_rates_cache, hs, hemp]
    · simp [hemp2, save_rates_cache, hs]

/-- Claim C9: a successful journal append adds exactly the one new record at
the journal's durable end, reports `True`, and every previously journaled
record is preserved unchanged (the old journal is literally the prefix of the
new one). -/
theorem claim_C9_journal_append_only (journal : List RateRecord)
    (f t : String) (r : Rat) (tsIso tsZ src : String)
    (meta : List (String × Option String)) :
    (save_exchange_rate_record true journal f t r tsIso tsZ src meta).1 = true ∧
    (save_exchange_rate_record true journal f t r tsIso tsZ src meta).2 =
      journal ++ [mk_record f t r tsIso tsZ src meta] ∧
    (save_exchange_rate_record true journal f t r tsIso tsZ src meta).2.take
      journal.length = journal := by
  refine ⟨rfl, rfl, ?_⟩
  exact List.take_left journal _

/-- Claim C10: a journal-write failure during `run_update` is silently
swallowed — `save_exchange_rate_record` reports it only by returning `False`,
`run_update` ignores that value, the source stays successful, nothing is added
to `failed_sources`, no record is persisted, and the snapshot is still
replaced with the fetched rates. -/
theorem claim_C10_journal_failure_swallowed (env : UpdateEnv) (s : String)
    (rates : List (String × Rat)) (σ : ParserStorage)
    (hj : env.journalOk = false) (hs : env.saveOk = true)
    (hm : s ∈ client_names) (hf : env.fetch s = Except.ok rates)
    (hwf : ∀ pr ∈ rates, (splitPair pr.1).isSome)
    (hnd : (rates.map Prod.fst).Nodup) (hne : rates ≠ []) :
    (run_update env (some [s]) σ).1.failed_sources = [] ∧
    (run_update env (some [s]) σ).1.successful_sources = [s] ∧
    (run_update env (some [s]) σ).2.journal = σ.journal ∧
    (run_update env (some [s]) σ).2.snapshot =
      some { pairs := build_cache_pairs rates env.lastRefresh
             last_refresh := env.lastRefresh } ∧
    ∀ (j : List RateRecord) (f2 t2 : String) (r2 : Rat) (i2 z2 sc2 : String)
      (m2 : List (String × Option String)),
      save_exchange_rate_record false j f2 t2 r2 i2 z2 sc2 m2 = (false, j) := by
  have hdu : dictUpdate [] rates = rates := dictUpdate_nil rates hnd
  have hne2 : rates.isEmpty = false := by
    cases rates with
    | nil => exact absurd rfl hne
    | cons a l => rfl
  have key : run_update_loop env [s]
      { all_rates := [], successful_sources := [], failed_sources := [], store := σ } =
      { all_rates := rates, successful_sources := [s], failed_sources := [],
        store := σ } := by
    rw [run_update_loop_ok env s _ _ rates hm hf hwf]
    simp [run_update_loop, hj, hdu]
  unfold run_update
  simp only [Option.getD, key, hne2, Bool.false_eq_true, if_false,
    save_rates_cache, hs, if_true]
  simp [save_exchange_rate_record]

/-- Concrete instance of claim C10's theorem: the journal write fails while
`coingecko` fetches one rate; the run still succeeds end to end. -/
theorem claim_C10_witness :
    (run_update
      { fetch := fun _ => Except.ok [("BTC_USD", (59337.21 : Rat))]
        lastRefresh := "2026-01-01T00:00:00", tsIso := "2026-01-01T00:00:00"
        tsZ := "2026-01-01T00:00:00Z", journalOk := false, saveOk := true }
      (some ["coingecko"]) { journal := [], snapshot := none }).1.failed_sources = [] ∧
    (run_update
      { fetch := fun _ => Except.ok [("BTC_USD", (59337.21 : Rat))]
        lastRefresh := "2026-01-01T00:00:00", tsIso := "2026-01-01T00:00:00"
        tsZ := "2026-01-01T00:00:00Z", journalOk := false, saveOk := true }
      (some ["coingecko"]) { journal := [], snapshot := none }).2.journal = [] := by
  refine ⟨?_, ?_⟩
  · exact (claim_C10_journal_failure_swallowed _ "coingecko" _ _ rfl rfl
      (by decide) rfl (by decide) (by decide) (by decide)).1
  · exact (claim_C10_journal_failure_swallowed _ "coingecko" _ _ rfl rfl
      (by decide) rfl (by decide) (by decide) (by decide)).2.2.1

/-! ## Claim theorems about the source clients -/

/-- Claim C4: with `MAX_RETRIES = 3`, a client whose first two attempts fail
and whose third succeeds returns the fetched rates, and a client whose three
attempts all fail raises `ApiRequestError` (the spec's
`SourceUnavailableError`) carrying the last attempt's error description; in
both runs the client waits the exponential backoff `2 ^ attempt` seconds
between consecutive failed attempts (`[2 ^ 0, 2 ^ 1] = [1, 2]`). -/
theorem claim_C4_retry_bound (o1 o2 : Nat → HttpAttempt ERPayload)
    (p : ERPayload) (entries : List (String × Except String Rat))
    (rates : List (String × Rat)) (m0 m1 e0 e1 e2 : String)
    (h0 : attempt_result (o1 0) = Except.error m0)
    (h1 : attempt_result (o1 1) = Except.error m1)
    (h2 : attempt_result (o1 2) = Except.ok p)
    (hp : p.conversion_rates = some entries)
    (hc : er_collect entries [] = Except.ok rates)
    (g0 : attempt_result (o2 0) = Except.error e0)
    (g1 : attempt_result (o2 1) = Except.error e1)
    (g2 : attempt_result (o2 2) = Except.error e2) :
    fetch_rates o1 = (Except.ok rates, [1, 2]) ∧
    fetch_rates o2 = (Except.error ("Failed after 3 attempts: " ++ e2), [1, 2]) := by
  constructor
  · unfold fetch_rates _make_request MAX_RETRIES
    simp [_make_request_loop, h0, h1, h2, hp, hc]
  · unfold fetch_rates _make_request MAX_RETRIES
    simp only [_make_request_loop, g0, g1, g2]
    norm_num
    rfl

/-- The attempt sequence of claim C4's witness that succeeds on the third
try. -/
def c4_ok_attempts : Nat → HttpAttempt ERPayload
  | 0 => HttpAttempt.timeout
  | 1 => HttpAttempt.connError
  | _ => HttpAttempt.response 200 ""
      (Except.ok ⟨some [("EUR", Except.ok (0.927 : Rat))]⟩)

/-- The attempt sequence of claim C4's witness that always times out. -/
def c4_fail_attempts : Nat → HttpAttempt ERPayload := fun _ => HttpAttempt.timeout

/-- Concrete instance of claim C4's theorem: timeout, connection error, then a
successful response with one EUR rate; and three straight timeouts. -/
theorem claim_C4_witness :
    fetch_rates c4_ok_attempts = (Except.ok [("EUR_USD", (0.927 : Rat))], [1, 2]) ∧
    fetch_rates c4_fail_attempts =
      (Except.error "Failed after 3 attempts: Request timeout", [1, 2]) := by
  have h := claim_C4_retry_bound c4_ok_attempts c4_fail_attempts
    ⟨some [("EUR", Except.ok (0.927 : Rat))]⟩
    [("EUR", Except.ok (0.927 : Rat))] [("EUR_USD", (0.927 : Rat))]
    "Request timeout" "Connection error" "Request timeout" "Request timeout"
    "Request timeout" rfl rfl rfl rfl rfl rfl rfl rfl
  exact ⟨h.1, h.2⟩

/-- Claim C5, as stated, is false: a 200 response whose body fails to parse as
JSON — a malformed response *after a successful connection* — is caught inside
the retry loop of `_make_request` and retried like a transient fault.  Here
attempt 0 returns status 200 with an unparsable body, yet the client sleeps
the backoff second and consumes attempt 1, which succeeds — it does not abort
immediately for that source. -/
theorem claim_C5_counterexample :
    fetch_rates (fun n => match n with
      | 0 => HttpAttempt.response 200 ""
          (Except.error "Expecting value: line 1 column 1 (char 0)")
      | _ => HttpAttempt.response 200 ""
          (Except.ok ⟨some [("EUR", Except.ok (0.927 : Rat))]⟩)) =
      (Except.ok [("EUR_USD", (0.927 : Rat))], [1]) := rfl

/-- Claim C5 amended: only an unexpected-shape/conversion error found in the
successfully parsed payload of a 200 response is non-retryable —
`fetch_rates` raises `ApiRequestError("Invalid ExchangeRate-API response
format: ...")` at once, consuming no further attempts and sleeping no backoff;
a 200 response whose body fails JSON parsing is, like timeouts, connection
failures and non-2xx statuses, retried inside `_make_request`. -/
theorem claim_C5_amended_shape_error_not_retried
    (o : Nat → HttpAttempt ERPayload) (p : ERPayload)
    (entries : List (String × Except String Rat)) (m : String)
    (h0 : attempt_result (o 0) = Except.ok p)
    (hp : p.conversion_rates = some entries)
    (hc : er_collect entries [] = Except.error m) :
    fetch_rates o =
      (Except.error ("Invalid ExchangeRate-API response format: " ++ m), []) := by
  unfold fetch_rates _make_request MAX_RETRIES
  simp [_make_request_loop, h0, hp, hc]

/-- Concrete instance of claim C5's amended theorem: a payload whose rate
value cannot be converted to float aborts on the first attempt. -/
theorem claim_C5_amended_witness :
    fetch_rates (fun _ => HttpAttempt.response 200 ""
      (Except.ok ⟨some [("EUR",
        Except.error "could not convert string to float: abc")]⟩)) =
      (Except.error
        "Invalid ExchangeRate-API response format: could not convert string to float: abc",
       []) := by
  exact claim_C5_amended_shape_error_not_retried _ _
    [("EUR", Except.error "could not convert string to float: abc")] _ rfl rfl rfl

/-! ## Claim theorems about the core query service -/

/-- The core environment of claim C1's concrete run. -/
def c1_env : CoreEnv :=
  { now := 1000, nowIso := "2026-01-01T00:00:00",
    parseTime := fun s => if s = "2026-01-01T00:00:00" then some 1000 else none,
    ttl := 300, dbSaveOk := true, dbErrMsg := "" }

/-- An empty `rates` collection (no snapshot ever written), which is stale. -/
def c1_empty : RatesCollection := { pairs := [], source := none, last_refresh := none }

/-- The aggregator environment of claim C1's concrete run: every source's
fetch fails. -/
def c1_parser_env : UpdateEnv :=
  { fetch := fun _ => Except.error "Ошибка при обращении к внешнему API: Failed after 3 attempts: Connection error"
    lastRefresh := "2026-01-01T00:00:00", tsIso := "2026-01-01T00:00:00"
    tsZ := "2026-01-01T00:00:00Z", journalOk := true, saveOk := true }

/-- Claim C1, as stated, is false: on a stale cache, `get_exchange_rate` does
not invoke the multi-source aggregator `run_update` — it invokes the core
service's stub `_update_rates_cache`.  Concretely: with an empty (stale)
collection and an outside world in which every aggregator source fails,
`GetRate("EUR","USD")` still answers `1.0786` and leaves the collection equal
to the fixed stub data (source `"StubService"`), while `run_update` in the
same world fetches nothing and leaves its storage byte-for-byte unchanged —
so the refresh `GetRate` performed cannot have been `run_update`. -/
theorem claim_C1_counterexample :
    get_exchange_rate c1_env c1_empty "EUR" "USD" =
      ((true, (1.0786 : Rat), "2026-01-01T00:00:00"),
       stub_rates "2026-01-01T00:00:00") ∧
    (stub_rates "2026-01-01T00:00:00").source = some "StubService" ∧
    run_update c1_parser_env none { journal := [], snapshot := none } =
      ({ successful_sources := []
         failed_sources :=
           [("coingecko", "Ошибка при обращении к внешнему API: Failed after 3 attempts: Connection error"),
            ("exchangerate", "Ошибка при обращении к внешнему API: Failed after 3 attempts: Connection error")]
         total_rates := 0
         last_refresh := "2026-01-01T00:00:00" },
       { journal := [], snapshot := none }) :=
  ⟨rfl, rfl, rfl⟩

/-- Claim C1 amended: when the cached rates are stale (and the collection
write succeeds), `get_exchange_rate` synchronously refreshes the collection
via the stub `_update_rates_cache` before answering: the whole call — answer
and resulting state — is exactly the same call run against the freshly
written stub collection.  The parser-service aggregator `run_update` is not
involved. -/
theorem claim_C1_amended_stale_refreshes_via_stub (env : CoreEnv)
    (σ : RatesCollection) (vf vt : String) (fuel : Nat)
    (hvf : validate_currency_code vf = Except.ok vf)
    (hvt : validate_currency_code vt = Except.ok vt)
    (hkf : vf ∈ currency_registry) (hkt : vt ∈ currency_registry)
    (hstale : _is_fresh_data env (σ.last_refresh.getD "") = false)
    (hsave : env.dbSaveOk = true) :
    get_rate_aux env fuel σ vf vt =
      get_rate_aux env fuel (stub_rates env.nowIso) vf vt := by
  rw [get_rate_aux, get_rate_aux]
  simp only [hvf, hvt, hkf, if_true, hkt, hstale, hsave]
  by_cases hfresh2 :
      _is_fresh_data env ((stub_rates env.nowIso).last_refresh.getD "") = true
  · simp [hfresh2]
  · simp only [Bool.not_eq_true] at hfresh2
    simp [hfresh2]

/-- Concrete instance of claim C1's amended theorem: the empty collection is
stale, and the `EUR→USD` query behaves exactly as on the stub collection. -/
theorem claim_C1_amended_witness :
    _is_fresh_data c1_env (c1_empty.last_refresh.getD "") = false ∧
    get_rate_aux c1_env 1 c1_empty "EUR" "USD" =
      get_rate_aux c1_env 1 (stub_rates c1_env.nowIso) "EUR" "USD" :=
  ⟨rfl, claim_C1_amended_stale_refreshes_via_stub c1_env c1_empty "EUR" "USD" 1
    rfl rfl (by decide) (by decide) rfl rfl⟩

/-- Claim C6: on a fresh collection with no direct `from_to` entry, where
neither currency is the bridge `USD` (codes validated and registered): if both
`from_USD` and `USD_to` entries exist, `get_exchange_rate` returns their
product with `updatedAt = now`, leaving the collection unchanged (no
write-back of the computed value); if either leg is missing, it fails with
the `ApiRequestError` naming the requested pair (the spec's
`RateUnavailableError`), again leaving the collection unchanged. -/
theorem claim_C6_triangulation (env : CoreEnv) (σ : RatesCollection)
    (vf vt : String)
    (hvf : validate_currency_code vf = Except.ok vf)
    (hvt : validate_currency_code vt = Except.ok vt)
    (hkf : vf ∈ currency_registry) (hkt : vt ∈ currency_registry)
    (hfresh : _is_fresh_data env (σ.last_refresh.getD "") = true)
    (hfU : vf ≠ "USD") (htU : vt ≠ "USD")
    (hdirect : σ.pairs.lookup (vf ++ "_" ++ vt) = none) :
    (∀ e1 e2 : CoreEntry,
      σ.pairs.lookup (vf ++ "_" ++ "USD") = some e1 →
      σ.pairs.lookup ("USD" ++ "_" ++ vt) = some e2 →
      get_exchange_rate env σ vf vt = ((true, e1.rate * e2.rate, env.nowIso), σ)) ∧
    ((σ.pairs.lookup (vf ++ "_" ++ "USD") = none ∨
      σ.pairs.lookup ("USD" ++ "_" ++ vt) = none) →
      get_exchange_rate env σ vf vt =
        ((false, 0, rate_unavailable_msg vf vt), σ)) := by
  have hUSDv : validate_currency_code "USD" = Except.ok "USD" := rfl
  have hUSDm : "USD" ∈ currency_registry := by decide
  have inner1 : ∀ e1 : CoreEntry, σ.pairs.lookup (vf ++ "_" ++ "USD") = some e1 →
      get_rate_aux env 0 σ vf "USD" = ((true, e1.rate, e1.updated_at), σ) := by
    intro e1 h1
    rw [get_rate_aux]
    simp [hvf, hUSDv, hkf, hUSDm, hfresh, h1]
  have inner1n : σ.pairs.lookup (vf ++ "_" ++ "USD") = none →
      get_rate_aux env 0 σ vf "USD" =
        ((false, 0, rate_unavailable_msg vf "USD"), σ) := by
    intro h1
    rw [get_rate_aux]
    simp [hvf, hUSDv, hkf, hUSDm, hfresh, h1]
  have inner2 : ∀ e2 : CoreEntry, σ.pairs.lookup ("USD" ++ "_" ++ vt) = some e2 →
      get_rate_aux env 0 σ "USD" vt = ((true, e2.rate, e2.updated_at), σ) := by
    intro e2 h2
    have h2' : σ.pairs.lookup ("USD_" ++ vt) = some e2 := h2
    rw [get_rate_aux]
    simp [hvt, hUSDv, hkt, hUSDm, hfresh, h2']
  have inner2n : σ.pairs.lookup ("USD" ++ "_" ++ vt) = none →
      get_rate_aux env 0 σ "USD" vt =
        ((false, 0, rate_unavailable_msg "USD" vt), σ) := by
    intro h2
    have h2' : σ.pairs.lookup ("USD_" ++ vt) = none := h2
    rw [get_rate_aux]
    simp [hvt, hUSDv, hkt, hUSDm, hfresh, h2']
  constructor
  · intro e1 e2 h1 h2
    unfold get_exchange_rate
    rw [get_rate_aux]
    simp [hvf, hvt, hkf, hkt, hfresh, hdirect, hfU, htU,
      inner1 e1 h1, inner2 e2 h2]
  · intro hmiss
    unfold get_exchange_rate
    rw [get_rate_aux]
    rcases hmiss with h1 | h2
    · cases h2 : σ.pairs.lookup ("USD" ++ "_" ++ vt) with
      | none =>
        simp [hvf, hvt, hkf, hkt, hfresh, hdirect, hfU, htU,
          inner1n h1, inner2n h2]
      | some e2 =>
        simp [hvf, hvt, hkf, hkt, hfresh, hdirect, hfU, htU,
          inner1n h1, inner2 e2 h2]
    · cases h1 : σ.pairs.lookup (vf ++ "_" ++ "USD") with
      | none =>
        simp [hvf, hvt, hkf, hkt, hfresh, hdirect, hfU, htU,
          inner1n h1, inner2n h2]
      | some e1 =>
        simp [hvf, hvt, hkf, hkt, hfresh, hdirect, hfU, htU,
          inner1 e1 h1, inner2n h2]

/-- The core environment of claim C6's concrete run. -/
def c6_env : CoreEnv :=
  { now := 2000, nowIso := "2026-02-01T00:00:00",
    parseTime := fun s => if s = "2026-02-01T00:00:00" then some 2000 else none,
    ttl := 300, dbSaveOk := true, dbErrMsg := "" }

/-- A fresh collection holding `RUB_USD = 0.01016` and `USD_EUR = 0.927` but
no `RUB_EUR`, as in the spec's triangulation example. -/
def c6_store : RatesCollection :=
  { pairs :=
      [("RUB_USD", { rate := (0.01016 : Rat), updated_at := "2026-02-01T00:00:00" }),
       ("USD_EUR", { rate := (0.927 : Rat), updated_at := "2026-02-01T00:00:00" })]
    source := some "StubService"
    last_refresh := some "2026-02-01T00:00:00" }

/-- Concrete instance of claim C6's theorem: `GetRate("RUB","EUR")` returns
`0.01016 * 0.927` (= 0.00941832) computed at query time, without writing it
back. -/
theorem claim_C6_witness :
    get_exchange_rate c6_env c6_store "RUB" "EUR" =
      ((true, (0.01016 : Rat) * (0.927 : Rat), "2026-02-01T00:00:00"), c6_store) := by
  exact (claim_C6_triangulation c6_env c6_store "RUB" "EUR" rfl rfl
    (by decide) (by decide) rfl (by decide) (by decide) rfl).1 _ _ rfl rfl

end VTH
